import Mathlib

/-!
Verification development for the App-IngenieriaMV repository.

The Python source is shallowly embedded: Django model properties and service
functions become Lean functions, `Decimal` values become exact rationals `ℚ`,
timestamps become integers (seconds), dates become naturals (ordinal days),
and the relevant database tables become explicit lists threaded through the
operations.  Each definition is translated from the corresponding function in
the source tree (file and symbol noted in its doc comment).
-/

namespace MV

/-- Python `x or Decimal("0")` on a non-nullable decimal field: returns
`Decimal("0")` when `x` is falsy (i.e. zero), else `x`.  On `ℚ` this is the
identity, but we keep the source's guard structure. -/
def orQ0 (x : ℚ) : ℚ := if x = 0 then 0 else x

/-- One priced item on a quote (`finanzas_comercial/models.py`, `QuoteLine`). -/
structure QuoteLine where
  title : String
  qty : ℚ
  unit_price_clp : ℚ
  discount_pct : ℚ
  sort_order : Nat
deriving DecidableEq, Repr

/-- Source `QuoteLine.line_total` (`finanzas_comercial/models.py`):
gross = qty * unit_price; discount ≤ 0 ⇒ gross; discount ≥ 100 ⇒ 0;
otherwise gross * (1 - discount/100). -/
def QuoteLine.line_total (ln : QuoteLine) : ℚ :=
  let q := orQ0 ln.qty
  let p := orQ0 ln.unit_price_clp
  let gross := q * p
  let d := ln.discount_pct
  if d ≤ 0 then gross
  else if d ≥ 100 then 0
  else gross * (1 - d / 100)

/-- A commercial quote (`finanzas_comercial/models.py`, `Quote`), restricted to
the fields the totals and reference logic read. `pk` is `none` before the first
save. -/
structure Quote where
  pk : Option Nat
  extra_discount_pct : ℚ
  amount_clp : ℚ
  pdf_reference : String
  lines : List QuoteLine
deriving DecidableEq, Repr

/-- Source `Quote.lines_subtotal_gross`: Σ (qty * unit_price) over lines. -/
def Quote.lines_subtotal_gross (q : Quote) : List QuoteLine → ℚ
  | [] => 0
  | ln :: rest => orQ0 ln.qty * orQ0 ln.unit_price_clp + q.lines_subtotal_gross rest

/-- Source `Quote.lines_discount_total`: Σ over lines of `gross * (d/100)` for lines
with a positive discount percentage. -/
def Quote.lines_discount_total (q : Quote) : List QuoteLine → ℚ
  | [] => 0
  | ln :: rest =>
      let gross := orQ0 ln.qty * orQ0 ln.unit_price_clp
      let d := ln.discount_pct
      (if 0 < d then gross * (d / 100) else 0) + q.lines_discount_total rest

/-- Source `Quote.subtotal_net` = gross subtotal − line-discount total. -/
def Quote.subtotal_net (q : Quote) : ℚ :=
  q.lines_subtotal_gross q.lines - q.lines_discount_total q.lines

/-- Source `Quote.extra_discount_amount`: 0 when pct ≤ 0; the whole net subtotal when
pct ≥ 100; else `subtotal_net * pct / 100`. -/
def Quote.extra_discount_amount (q : Quote) : ℚ :=
  let pct := orQ0 q.extra_discount_pct
  if pct ≤ 0 then 0
  else if pct ≥ 100 then q.subtotal_net
  else q.subtotal_net * (pct / 100)

/-- Source `Quote.total_final` = `subtotal_net` − `extra_discount_amount`. -/
def Quote.total_final (q : Quote) : ℚ :=
  q.subtotal_net - q.extra_discount_amount

/-- Source `Quote.total_clp`: falls back to the stored `amount_clp` when the quote has
no lines, else uses `total_final`. -/
def Quote.total_clp (q : Quote) : ℚ :=
  if q.lines.isEmpty then orQ0 q.amount_clp else q.total_final

/-- Python `f"{pk:06d}"`: decimal digits left-padded with zeros to width 6. -/
def pad6 (n : Nat) : String :=
  let s := toString n
  String.mk (List.replicate (6 - s.length) '0') ++ s

/-- Python truthiness of a primary key: `None` and `0` are falsy. -/
def pkTruthy : Option Nat → Bool
  | none => false
  | some n => n != 0

/-- Source `Quote.ensure_reference` (`finanzas_comercial/models.py`): assign
`COT-` + zero-padded pk, only when the reference is blank and a pk exists
(`if not self.pdf_reference and self.pk`; a Python pk of `None` or `0` is
falsy). -/
def Quote.ensure_reference (q : Quote) : Quote :=
  if q.pdf_reference = "" ∧ pkTruthy q.pk then
    { q with pdf_reference := "COT-" ++ pad6 (q.pk.getD 0) }
  else q

/-- Python `str.strip()` on the character list: drop leading and trailing
whitespace. -/
def stripChars (l : List Char) : List Char :=
  ((l.dropWhile Char.isWhitespace).reverse.dropWhile Char.isWhitespace).reverse

/-- Python `str.strip()`. -/
def pyStrip (s : String) : String := String.mk (stripChars s.data)

/-- Python `str.lower()` on one character (ASCII letters). -/
def pyLowerChar (c : Char) : Char :=
  if 'A' ≤ c ∧ c ≤ 'Z' then Char.ofNat (c.toNat + 32) else c

/-- Python `str.lower()` (ASCII letters). -/
def pyLower (s : String) : String := String.mk (s.data.map pyLowerChar)

/-- A role (`usuarios/models.py`, `Role`), restricted to the fields the access
checks read. -/
structure Role where
  name : String
  is_active : Bool
  require_2fa : Bool
deriving DecidableEq, Repr

/-- A user (`usuarios/models.py`, `User`), restricted to the security-relevant
fields; `roles` is the user's many-to-many role set. -/
structure User where
  is_authenticated : Bool
  is_superuser : Bool
  force_2fa : Bool
  twofa_confirmed : Bool
  roles : List Role
deriving DecidableEq, Repr

/-- Source `User.requires_2fa` (`usuarios/models.py`): `force_2fa`, or membership in
an active role with `require_2fa = True`. -/
def User.requires_2fa (u : User) : Bool :=
  u.force_2fa || u.roles.any (fun r => r.require_2fa && r.is_active)

/-- Source `User.has_confirmed_2fa` (`usuarios/models.py`). -/
def User.has_confirmed_2fa (u : User) : Bool := u.twofa_confirmed

/-- Source `user_has_role` (`usuarios/decoradores.py`): false for a missing or
unauthenticated user or a blank (stripped) role name; superusers pass exactly
the (case-insensitively) "admin" check; otherwise membership in an active role
whose name is in the accepted list, where requesting "comercial"
(case-insensitively) also accepts the literal name `Comercial_Jefe`. -/
def user_has_role (user : Option User) (role_name : String) : Bool :=
  match user with
  | none => false
  | some u =>
    if !u.is_authenticated then false
    else
      let rn := pyStrip role_name
      if rn = "" then false
      else
        let rl := pyLower rn
        if u.is_superuser ∧ rl = "admin" then true
        else
          let accepted := if rl = "comercial" then [rn, "Comercial_Jefe"] else [rn]
          u.roles.any (fun r => accepted.contains r.name && r.is_active)

/-- Source `enforce_global` as computed in `Require2FAMiddleware.__call__`
(`common/middleware.py`): an enforcement date is configured and today is on or
after it.  Dates are modelled as ordinal day numbers. -/
def enforceGlobal (enforce_date : Option Nat) (today : Nat) : Bool :=
  match enforce_date with
  | none => false
  | some d => d ≤ today

/-- The "requires 2FA" computation of `Require2FAMiddleware.__call__`
(`common/middleware.py`): in debug builds only the global enforcement date
counts; otherwise the user's own `requires_2fa` or the global date. -/
def middlewareRequires2FA (debug : Bool) (enforce_date : Option Nat)
    (today : Nat) (u : User) : Bool :=
  if debug then enforceGlobal enforce_date today
  else u.requires_2fa || enforceGlobal enforce_date today

/-- A task (`finanzas_comercial/models.py`, `Task`), restricted to the fields
the status-update endpoint touches. -/
structure Task where
  status : String
  status_comment : String
  completed_at : Option Int
  updated_at : Int
deriving DecidableEq, Repr

/-- Outcome of a POST to the status-update endpoint: an error flash leaves the
record untouched, success persists the mutated record. -/
inductive UpdateOutcome where
  | ok : UpdateOutcome
  | rejected (msg : String) : UpdateOutcome
deriving DecidableEq, Repr

/-- The valid task status codes (`Task.Status.choices`). -/
def taskStatusCodes : List String := ["EN_PROCESO", "COMPLETADA", "PEND_EXTERNO"]

/-- Source `task_update_status` (`finanzas_comercial/views_tareas.py`): strips the
posted status and comment; rejects unknown statuses; rejects `PEND_EXTERNO`
with a blank comment; otherwise persists status, comment and completion
timestamp together (`updated_at` is the model's `auto_now` stamp). -/
def task_update_status (t : Task) (status_raw comment_raw : String)
    (now : Int) : UpdateOutcome × Task :=
  let new_status := pyStrip status_raw
  let comment := pyStrip comment_raw
  if !(taskStatusCodes.contains new_status) then
    (.rejected "Estatus inválido.", t)
  else if new_status = "PEND_EXTERNO" ∧ comment = "" then
    (.rejected "Para 'Pendiente por persona externa' debes ingresar un comentario obligatorio.", t)
  else
    let t1 := { t with status := new_status }
    let t2 :=
      if new_status = "COMPLETADA" then
        let tc := { t1 with completed_at := some now }
        if comment ≠ "" then { tc with status_comment := comment } else tc
      else if new_status = "PEND_EXTERNO" then
        { t1 with completed_at := none, status_comment := comment }
      else
        { t1 with completed_at := none }
    (.ok, { t2 with updated_at := now })

/-! ### SHA-256 (`hashlib.sha256(...).hexdigest()` at the `TrustedDevice.hash_token` boundary)

Words are naturals taken modulo 2^32. -/

def M32 : Nat := 4294967296

def add32 (a b : Nat) : Nat := (a + b) % M32

def rotr32 (n x : Nat) : Nat := ((x >>> n) ||| (x <<< (32 - n))) % M32

def not32 (x : Nat) : Nat := x ^^^ 4294967295

def sha256K : List Nat :=
  [1116352408, 1899447441, 3049323471, 3921009573, 961987163,
   1508970993, 2453635748, 2870763221, 3624381080, 310598401,
   607225278, 1426881987, 1925078388, 2162078206, 2614888103,
   3248222580, 3835390401, 4022224774, 264347078, 604807628,
   770255983, 1249150122, 1555081692, 1996064986, 2554220882,
   2821834349, 2952996808, 3210313671, 3336571891, 3584528711,
   113926993, 338241895, 666307205, 773529912, 1294757372,
   1396182291, 1695183700, 1986661051, 2177026350, 2456956037,
   2730485921, 2820302411, 3259730800, 3345764771, 3516065817,
   3600352804, 4094571909, 275423344, 430227734, 506948616,
   659060556, 883997877, 958139571, 1322822218, 1537002063,
   1747873779, 1955562222, 2024104815, 2227730452, 2361852424,
   2428436474, 2756734187, 3204031479, 3329325298]

def sha256H0 : List Nat :=
  [1779033703, 3144134277, 1013904242, 2773480762,
   1359893119, 2600822924, 528734635, 1541459225]

def ssig0 (x : Nat) : Nat := (rotr32 7 x) ^^^ (rotr32 18 x) ^^^ (x >>> 3)

def ssig1 (x : Nat) : Nat := (rotr32 17 x) ^^^ (rotr32 19 x) ^^^ (x >>> 10)

def bsig0 (x : Nat) : Nat := (rotr32 2 x) ^^^ (rotr32 13 x) ^^^ (rotr32 22 x)

def bsig1 (x : Nat) : Nat := (rotr32 6 x) ^^^ (rotr32 11 x) ^^^ (rotr32 25 x)

/-- Message-schedule extension: append `n` further words. -/
def extendW (ws : List Nat) : Nat → List Nat
  | 0 => ws
  | n + 1 =>
      let k := ws.length
      let w := add32 (add32 (ssig1 (ws.getD (k - 2) 0)) (ws.getD (k - 7) 0))
                     (add32 (ssig0 (ws.getD (k - 15) 0)) (ws.getD (k - 16) 0))
      extendW (ws ++ [w]) n

/-- One compression round on the state `[a, b, c, d, e, f, g, h]` with a
round-constant/schedule-word pair. -/
def sha256Round (st : List Nat) (kw : Nat × Nat) : List Nat :=
  match st with
  | [a, b, c, d, e, f, g, h] =>
      let t1 := add32 (add32 (add32 h (bsig1 e))
                  (add32 ((e &&& f) ^^^ ((not32 e) &&& g)) kw.1)) kw.2
      let t2 := add32 (bsig0 a) (((a &&& b) ^^^ (a &&& c)) ^^^ (b &&& c))
      [add32 t1 t2, a, b, c, add32 d t1, e, f, g]
  | other => other

/-- Big-endian 4-byte groups to 32-bit words. -/
def bytesToWords : List Nat → List Nat
  | b0 :: b1 :: b2 :: b3 :: rest =>
      (((b0 * 256 + b1) * 256 + b2) * 256 + b3) :: bytesToWords rest
  | _ => []

def sha256Compress (st : List Nat) (block : List Nat) : List Nat :=
  let ws := extendW (bytesToWords block) 48
  let out := (sha256K.zip ws).foldl sha256Round st
  (st.zip out).map (fun p => add32 p.1 p.2)

/-- Chunking into 64-byte blocks, fuelled by the list length so the recursion is
structural (the fuel never runs out since every step consumes ≥ 1 element). -/
def toBlocksFuel : Nat → List Nat → List (List Nat)
  | _, [] => []
  | 0, _ => []
  | fuel + 1, a :: rest => ((a :: rest).take 64) :: toBlocksFuel fuel ((a :: rest).drop 64)

def toBlocks (l : List Nat) : List (List Nat) := toBlocksFuel l.length l

/-- Standard SHA-256 padding: `0x80`, zeros to 56 mod 64, 8-byte big-endian
bit length. -/
def sha256Pad (msg : List Nat) : List Nat :=
  let len := msg.length
  let zeros := (56 + 64 - (len + 1) % 64) % 64
  let lenBits := len * 8
  msg ++ [128] ++ List.replicate zeros 0 ++
    [(lenBits >>> 56) % 256, (lenBits >>> 48) % 256, (lenBits >>> 40) % 256,
     (lenBits >>> 32) % 256, (lenBits >>> 24) % 256, (lenBits >>> 16) % 256,
     (lenBits >>> 8) % 256, lenBits % 256]

def hexChar (n : Nat) : Char :=
  if n < 10 then Char.ofNat (48 + n) else Char.ofNat (87 + n)

def wordHex (n : Nat) : List Char :=
  (List.range 8).map (fun i => hexChar ((n >>> (28 - 4 * i)) % 16))

/-- Lowercase-hex SHA-256 digest of a byte list. -/
def sha256hexBytes (msg : List Nat) : String :=
  let final := (toBlocks (sha256Pad msg)).foldl sha256Compress sha256H0
  String.mk (final.foldr (fun w acc => wordHex w ++ acc) [])

/-- UTF-8 encoding of one character (Python `str.encode("utf-8")`). -/
def utf8Bytes (c : Char) : List Nat :=
  let n := c.toNat
  if n < 128 then [n]
  else if n < 2048 then [192 ||| (n >>> 6), 128 ||| (n % 64)]
  else if n < 65536 then
    [224 ||| (n >>> 12), 128 ||| ((n >>> 6) % 64), 128 ||| (n % 64)]
  else
    [240 ||| (n >>> 18), 128 ||| ((n >>> 12) % 64), 128 ||| ((n >>> 6) % 64),
     128 ||| (n % 64)]

def strBytes (s : String) : List Nat := s.data.foldr (fun c acc => utf8Bytes c ++ acc) []

/-- Source `hashlib.sha256(raw.encode("utf-8")).hexdigest()`. -/
def sha256hex (s : String) : String := sha256hexBytes (strBytes s)

/-! ### Trusted devices (`usuarios/models.py` `TrustedDevice`,
`usuarios/services_trusted.py`) -/

/-- Source `TrustedDevice.hash_token` (`usuarios/models.py`): hex SHA-256 digest of
the raw token. -/
def hash_token (raw : String) : String := sha256hex raw

/-- A trusted-device row (`usuarios/models.py`, `TrustedDevice`).  Timestamps
are integers (seconds). -/
structure TrustedDevice where
  id : Nat
  user_id : Nat
  token_hash : String
  user_agent : String
  ip_address : String
  created_at : Int
  last_used_at : Option Int
  expires_at : Int
  revoked_at : Option Int
deriving DecidableEq, Repr

/-- Source `TrustedDevice.is_active`: no revocation timestamp and expiry in the
future. -/
def TrustedDevice.is_active (td : TrustedDevice) (now : Int) : Bool :=
  match td.revoked_at with
  | some _ => false
  | none => decide (now < td.expires_at)

/-- Source `TrustedDevice.mark_used`: stamp `last_used_at = now`. -/
def TrustedDevice.mark_used (td : TrustedDevice) (now : Int) : TrustedDevice :=
  { td with last_used_at := some now }

/-- Source `make_trusted_device` (`usuarios/services_trusted.py`): persist only the
hash of the raw token; `raw` stands for the `secrets.token_urlsafe(48)` sample
and `newId` for the database-assigned primary key; the user-agent is truncated
to 1000 characters; expiry is `now + days` (in seconds).  Returns
`(raw_token, new_record, new_table)`. -/
def make_trusted_device (db : List TrustedDevice) (newId userId : Nat)
    (raw ip ua : String) (now : Int) (days : Int) :
    String × TrustedDevice × List TrustedDevice :=
  let td : TrustedDevice :=
    { id := newId, user_id := userId, token_hash := hash_token raw,
      user_agent := String.mk (ua.data.take 1000), ip_address := ip,
      created_at := now, last_used_at := some now,
      expires_at := now + days * 86400, revoked_at := none }
  (raw, td, db ++ [td])

/-- Source `verify_trusted_device` (`usuarios/services_trusted.py`): a falsy token
(absent cookie or empty string) never matches; otherwise hash it and look up
the first unrevoked, unexpired record for that exact user and hash
(`expires_at__gt=now`); on a match stamp last-used and persist it. -/
def verify_trusted_device (db : List TrustedDevice) (userId : Nat)
    (raw_token : Option String) (now : Int) :
    Option TrustedDevice × List TrustedDevice :=
  match raw_token with
  | none => (none, db)
  | some raw =>
      if raw = "" then (none, db)
      else
        let h := hash_token raw
        match db.find? (fun td => td.user_id == userId && td.token_hash == h
            && td.revoked_at.isNone && decide (now < td.expires_at)) with
        | none => (none, db)
        | some td =>
            let td' := td.mark_used now
            (some td', db.map (fun x => if x.id == td.id then td' else x))

/-- Source `revoke_trusted_device` (`usuarios/services_trusted.py`): stamp
`revoked_at = now` on the matching unrevoked record scoped to this user. -/
def revoke_trusted_device (db : List TrustedDevice) (userId devId : Nat)
    (now : Int) : List TrustedDevice :=
  db.map (fun td =>
    if td.user_id == userId && td.id == devId && td.revoked_at.isNone then
      { td with revoked_at := some now }
    else td)

/-- The settings `Require2FAMiddleware` reads (`mv_ingenieria/settings`):
debug flag, global enforcement date, OTP-verified window in seconds
(`OTP_VERIFIED_AGE_SECONDS`, defaulting to `SESSION_COOKIE_AGE`), and the
trusted-device cookie name. -/
structure Settings2FA where
  debug : Bool
  enforce_date : Option Nat
  otp_seconds : Int
  cookie_name : String
deriving DecidableEq, Repr

/-- The request state `Require2FAMiddleware` reads: the authenticated user
and their id, whether the path matches an exempt prefix
(login/logout/2fa/static/media), the parsed session `otp_verified_at`
timestamp, and the trusted-device cookie value. -/
structure RequestState where
  user_id : Nat
  user : User
  path_exempt : Bool
  otp_verified_at : Option Int
  cookie_td : Option String
deriving DecidableEq, Repr

/-- Outcome of one pass through `Require2FAMiddleware.__call__`. -/
inductive MWOutcome where
  | proceed
  | redirectSetup
  | redirectVerify
  | raisedTypeError
deriving DecidableEq, Repr

/-- Source `get_valid_trusted_device_from_cookie(request, user=None)`
(`usuarios/services_trusted.py`): resolve the authenticated user from the
request, read the cookie, delegate to `verify_trusted_device`. -/
def get_valid_trusted_device_from_cookie (db : List TrustedDevice)
    (req : RequestState) (now : Int) : Option TrustedDevice × List TrustedDevice :=
  if !req.user.is_authenticated then (none, db)
  else verify_trusted_device db req.user_id req.cookie_td now

/-- Source `Require2FAMiddleware.__call__` (`common/middleware.py`).  The
trusted-device step of the source reads
`get_valid_trusted_device_from_cookie(request, cookie_name=cookie_name)`, but
that function's parameters are `(request, user=None)`; Python raises
`TypeError: got an unexpected keyword argument` at the call, before the lookup
body runs, so in a non-debug build that step is an error outcome rather than a
cookie check. -/
def require2FA_call (st : Settings2FA) (req : RequestState) (today : Nat)
    (now : Int) (_db : List TrustedDevice) : MWOutcome :=
  if !req.user.is_authenticated then .proceed
  else if !(middlewareRequires2FA st.debug st.enforce_date today req.user) then .proceed
  else if req.path_exempt then .proceed
  else if !req.user.has_confirmed_2fa then .redirectSetup
  else
    let fresh :=
      match req.otp_verified_at with
      | none => false
      | some t => decide (now - t ≤ st.otp_seconds)
    if fresh then .proceed
    else if !st.debug then .raisedTypeError
    else .redirectVerify

/-! ### Backup codes and unified OTP verification (`usuarios/services_2fa.py`) -/

/-- The OTP state of one user at the `django_otp` boundary: the token list of
the per-user "backup" `StaticDevice` (`none` while no such device exists), and
the confirmed TOTP device — `totp_confirmed` says whether one exists,
`totp_valid` is the set of numeric codes its time-window verification
currently accepts (the library is an external interface). -/
structure OtpState where
  backup_tokens : Option (List String)
  totp_confirmed : Bool
  totp_valid : List Nat
deriving DecidableEq, Repr

/-- Python `token.strip().replace(" ", "")`. -/
def normToken (s : String) : String :=
  String.mk ((stripChars s.data).filter (fun c => c ≠ ' '))

/-- Python `str.isdigit()` (ASCII): nonempty and all digits. -/
def pyIsDigit (s : String) : Bool := !(s.data.isEmpty) && s.data.all Char.isDigit

/-- Python `int(...)` on a digit string. -/
def digitsToNat (l : List Char) : Nat :=
  l.foldl (fun acc c => acc * 10 + (c.toNat - 48)) 0

/-- Whether the confirmed TOTP device accepts the (already normalized) token:
`tdev and token.isdigit() and tdev.verify_token(int(token))`. -/
def totpAccepts (st : OtpState) (tok : String) : Bool :=
  st.totp_confirmed && pyIsDigit tok && st.totp_valid.contains (digitsToNat tok.data)

/-- Source `StaticDevice.verify_token` (`django_otp` static plugin): a matching
stored token is consumed (one occurrence deleted) and verification succeeds;
otherwise nothing changes. -/
def static_verify (tokens : List String) (t : String) : Bool × List String :=
  if tokens.contains t then (true, tokens.erase t) else (false, tokens)

/-- Source `generate_backup_codes` (`usuarios/services_2fa.py`): get-or-create the
"backup" static device, delete every previously stored token of that device,
store the freshly sampled codes (`StaticToken.random_token()` draws are the
`sampled` parameter, one per loop iteration), and return them. -/
def generate_backup_codes (st : OtpState) (sampled : List String) :
    List String × OtpState :=
  (sampled, { st with backup_tokens := some sampled })

/-- Source `verify_any_otp` (`usuarios/services_2fa.py`): normalize the token, try
the confirmed TOTP device on numeric tokens, else try to consume a backup
code; returns `(ok, kind)` with kind "totp", "backup" or "invalid". -/
def verify_any_otp (st : OtpState) (token : String) : (Bool × String) × OtpState :=
  let tok := normToken token
  if totpAccepts st tok then ((true, "totp"), st)
  else
    match st.backup_tokens with
    | none => ((false, "invalid"), st)
    | some toks =>
        let r := static_verify toks tok
        if r.1 then ((true, "backup"), { st with backup_tokens := some r.2 })
        else ((false, "invalid"), st)

/-- A contact row (`finanzas_comercial/models.py`, `Contact`), restricted to
the fields the activity-propagation signals read; `id` is `none` for a row
that has never been saved. -/
structure SContact where
  id : Option Nat
  company_id : Option Nat
  last_activity_at : Option Int
deriving DecidableEq, Repr

/-- A company row (`finanzas_comercial/models.py`, `Company`), restricted to
the activity timestamp. -/
structure SCompany where
  id : Nat
  last_activity_at : Option Int
deriving DecidableEq, Repr

/-- The contact and company tables. -/
structure CRMDB where
  contacts : List SContact
  companies : List SCompany
deriving DecidableEq, Repr

/-- Source `Company.objects.filter(id=cid).update(last_activity_at=ts)`. -/
def touchCompany (cs : List SCompany) (cid : Nat) (ts : Int) : List SCompany :=
  cs.map (fun co => if co.id = cid then { co with last_activity_at := some ts } else co)

/-- Source `contact_pre_save_track_company` (`finanzas_comercial/signals.py`): the
previously persisted company id of the contact, `none` for an unsaved contact
or a missing row. -/
def oldCompanyId (db : CRMDB) (c : SContact) : Option Nat :=
  match c.id with
  | none => none
  | some pk =>
      match db.contacts.find? (fun oc => oc.id == some pk) with
      | none => none
      | some oc => oc.company_id

/-- Saving a contact: the pre-save hook captures the old company id, the row
itself is written, then `contact_post_save_touch_company`
(`finanzas_comercial/signals.py`) stamps the current company with the
contact's activity timestamp (or now) and, when the association changed, the
previous company with now.  Python truthiness of the ids (`if instance.company_id`,
`if old_company_id`) treats 0 like `None`. -/
def contactSave (db : CRMDB) (c : SContact) (now : Int) : CRMDB :=
  let old_company_id := oldCompanyId db c
  let contacts1 :=
    match c.id with
    | some pk =>
        if db.contacts.any (fun oc => oc.id == some pk) then
          db.contacts.map (fun oc => if oc.id == some pk then c else oc)
        else db.contacts ++ [c]
    | none => db.contacts ++ [c]
  let activity_dt := c.last_activity_at.getD now
  let companies1 :=
    match c.company_id with
    | some cid => if cid ≠ 0 then touchCompany db.companies cid activity_dt else db.companies
    | none => db.companies
  let companies2 :=
    match old_company_id with
    | some ocid =>
        if ocid ≠ 0 ∧ some ocid ≠ c.company_id then touchCompany companies1 ocid now
        else companies1
    | none => companies1
  { contacts := contacts1, companies := companies2 }

/-- Sample quote of §8 scenario 1: no lines, stored amount 100000. -/
def sampleQuoteNoLines : Quote :=
  { pk := none, extra_discount_pct := 0, amount_clp := 100000,
    pdf_reference := "", lines := [] }

/-- Sample quote of §8 scenario 2: qty 2 @ 1000 with 10% line discount plus
qty 1 @ 500 with no discount, and a 10% extra discount. -/
def sampleQuoteLines : Quote :=
  { pk := none, extra_discount_pct := 10, amount_clp := 0, pdf_reference := "",
    lines := [⟨"A", 2, 1000, 10, 0⟩, ⟨"B", 1, 500, 0, 1⟩] }

/-- Sample quote with a 100% extra discount. -/
def sampleQuoteFullDiscount : Quote :=
  { pk := none, extra_discount_pct := 100, amount_clp := 0, pdf_reference := "",
    lines := [⟨"A", 2, 1000, 10, 0⟩] }

/-- Sample state for C7: a persisted contact (id 5) previously at company 1,
re-saved pointing at company 2 with its own activity timestamp 42. -/
def wCRMDB : CRMDB :=
  { contacts := [⟨some 5, some 1, none⟩],
    companies := [⟨1, none⟩, ⟨2, none⟩] }

/-- The re-saved contact of the C7 sample: moved from company 1 to company 2. -/
def wContact : SContact := ⟨some 5, some 2, some 42⟩

/-- The trusted-device table after issuing a device (id 1) for user 7 with a
concrete raw token at time 0 for 90 days. -/
def wIssue : String × TrustedDevice × List TrustedDevice :=
  make_trusted_device [] 1 7 "secret-raw-token" "1.2.3.4" "agent" 0 90

/-- The production deployment settings of the C2 scenario: non-debug, no
global enforcement date, the default one-hour OTP window and cookie name. -/
def bugSettings : Settings2FA :=
  { debug := false, enforce_date := none, otp_seconds := 3600, cookie_name := "mv_td" }

/-- The C2 requester: authenticated user 7, 2FA-confirmed, `force_2fa` set,
no session OTP timestamp, presenting the raw trusted-device cookie issued in
`wIssue`, on a non-exempt path. -/
def bugReq : RequestState :=
  { user_id := 7, user := ⟨true, false, true, true, []⟩, path_exempt := false,
    otp_verified_at := none, cookie_td := some "secret-raw-token" }

/-- The pre-existing OTP state for the C8 witness: two old backup codes, no
confirmed TOTP device. -/
def wOtp0 : OtpState :=
  { backup_tokens := some ["OLDAAA", "OLDBBB"], totp_confirmed := false,
    totp_valid := [] }

/-- The 10 freshly sampled backup codes of the C8 witness. -/
def wCodes : List String :=
  ["AAAA0001", "AAAA0002", "AAAA0003", "AAAA0004", "AAAA0005",
   "AAAA0006", "AAAA0007", "AAAA0008", "AAAA0009", "AAAA0010"]

/-! ### Auxiliary lemmas -/

theorem orQ0_eq (x : ℚ) : orQ0 x = x := by
  unfold orQ0; split <;> simp_all

/-- Auxiliary: an element of a touched company list whose id is the touched id
carries the new timestamp. -/
theorem touchCompany_mem_eq (cs : List SCompany) (cid : Nat) (ts : Int)
    (co : SCompany) (hmem : co ∈ touchCompany cs cid ts) (hid : co.id = cid) :
    co.last_activity_at = some ts := by
  rcases List.mem_map.mp hmem with ⟨co', hco', heq⟩
  by_cases h : co'.id = cid
  · rw [← heq]
    simp [h]
  · rw [← heq] at hid
    simp [h] at hid

/-- Auxiliary: an element of a touched company list whose id differs from the
touched id was already in the original list. -/
theorem touchCompany_mem_ne (cs : List SCompany) (cid : Nat) (ts : Int)
    (co : SCompany) (hmem : co ∈ touchCompany cs cid ts) (hid : co.id ≠ cid) :
    co ∈ cs := by
  rcases List.mem_map.mp hmem with ⟨co', hco', heq⟩
  by_cases h : co'.id = cid
  · rw [← heq] at hid
    simp [h] at hid
  · rw [← heq]
    simp [h]
    exact hco'

/-- Auxiliary: for a discount within [0, 100], a line's `line_total` equals its
gross amount minus the discount amount the aggregate path charges for it. -/
theorem line_total_eq_gross_sub_discount (ln : QuoteLine)
    (h0 : 0 ≤ ln.discount_pct) (h100 : ln.discount_pct ≤ 100) :
    ln.line_total = orQ0 ln.qty * orQ0 ln.unit_price_clp
      - (if 0 < ln.discount_pct then
          orQ0 ln.qty * orQ0 ln.unit_price_clp * (ln.discount_pct / 100) else 0) := by
  unfold QuoteLine.line_total
  rcases lt_trichotomy ln.discount_pct 0 with hd | hd | hd
  · exact absurd h0 (not_le.mpr hd)
  · simp [hd]
  · by_cases hge : (100 : ℚ) ≤ ln.discount_pct
    · have heq : ln.discount_pct = 100 := le_antisymm h100 hge
      rw [if_neg (not_le.mpr hd), if_pos hge, if_pos hd, heq]
      ring
    · rw [if_neg (not_le.mpr hd), if_neg hge, if_pos hd]
      ring

/-- Auxiliary: for per-line discounts within [0, 100], gross minus discount of
a line list equals the sum of the lines' `line_total`s. -/
theorem gross_sub_discount_eq_sum (q : Quote) (l : List QuoteLine)
    (h : ∀ ln ∈ l, 0 ≤ ln.discount_pct ∧ ln.discount_pct ≤ 100) :
    q.lines_subtotal_gross l - q.lines_discount_total l
      = (l.map QuoteLine.line_total).sum := by
  induction l with
  | nil => simp [Quote.lines_subtotal_gross, Quote.lines_discount_total]
  | cons ln rest ih =>
      have hln := h ln (by simp)
      have hrest : ∀ x ∈ rest, 0 ≤ x.discount_pct ∧ x.discount_pct ≤ 100 :=
        fun x hx => h x (by simp [hx])
      simp only [Quote.lines_subtotal_gross, Quote.lines_discount_total,
        List.map_cons, List.sum_cons, ← ih hrest,
        line_total_eq_gross_sub_discount ln hln.1 hln.2]
      ring

end MV

namespace MV

/-- C1: for every Quote, `subtotal_net` = `lines_subtotal_gross` −
`lines_discount_total`; `extra_discount_amount` is 0 when the extra discount
percentage is ≤ 0, equals `subtotal_net` when it is ≥ 100, and equals
`subtotal_net * pct / 100` otherwise; and `total_clp` equals the stored
`amount_clp` when the quote has no lines and `total_final`
(= `subtotal_net` − `extra_discount_amount`) when it has at least one line. -/
theorem quote_totals_spec (q : Quote) :
    q.subtotal_net = q.lines_subtotal_gross q.lines - q.lines_discount_total q.lines ∧
    (q.extra_discount_pct ≤ 0 → q.extra_discount_amount = 0) ∧
    (100 ≤ q.extra_discount_pct → q.extra_discount_amount = q.subtotal_net) ∧
    (0 < q.extra_discount_pct → q.extra_discount_pct < 100 →
      q.extra_discount_amount = q.subtotal_net * q.extra_discount_pct / 100) ∧
    q.total_final = q.subtotal_net - q.extra_discount_amount ∧
    (q.lines = [] → q.total_clp = q.amount_clp) ∧
    (q.lines ≠ [] → q.total_clp = q.total_final) := by
  refine ⟨rfl, ?_, ?_, ?_, rfl, ?_, ?_⟩
  · intro h
    simp [Quote.extra_discount_amount, orQ0_eq, h]
  · intro h
    have h0 : ¬ q.extra_discount_pct ≤ 0 := by
      intro hle; linarith
    simp [Quote.extra_discount_amount, orQ0_eq, h0, h]
  · intro h1 h2
    have h0 : ¬ q.extra_discount_pct ≤ 0 := not_le.mpr h1
    have h100 : ¬ (100 : ℚ) ≤ q.extra_discount_pct := not_le.mpr h2
    simp [Quote.extra_discount_amount, orQ0_eq, h0, h100]
    ring
  · intro h
    simp [Quote.total_clp, h, orQ0_eq]
  · intro h
    simp [Quote.total_clp, List.isEmpty_iff, h]

/-- C1 witness: the concrete quotes of the spec's §8 scenarios — a line-less
quote displaying its stored amount, and the two-line quote with a 10% extra
discount (gross 2500, line discounts 200, net 2300, extra discount 230,
total 2070). -/
theorem quote_totals_spec_witness :
    (sampleQuoteNoLines.total_clp = 100000 ∧
      sampleQuoteNoLines.extra_discount_amount = 0) ∧
    (sampleQuoteLines.extra_discount_amount
        = sampleQuoteLines.subtotal_net * 10 / 100 ∧
      sampleQuoteLines.total_clp = sampleQuoteLines.total_final) ∧
    sampleQuoteFullDiscount.extra_discount_amount
      = sampleQuoteFullDiscount.subtotal_net := by
  refine ⟨⟨?_, ?_⟩, ⟨?_, ?_⟩, ?_⟩
  · have := (quote_totals_spec sampleQuoteNoLines).2.2.2.2.2.1 rfl
    simpa [sampleQuoteNoLines] using this
  · exact (quote_totals_spec sampleQuoteNoLines).2.1 (by norm_num [sampleQuoteNoLines])
  · exact (quote_totals_spec sampleQuoteLines).2.2.2.1
      (by norm_num [sampleQuoteLines]) (by norm_num [sampleQuoteLines])
  · exact (quote_totals_spec sampleQuoteLines).2.2.2.2.2.2 (by simp [sampleQuoteLines])
  · exact (quote_totals_spec sampleQuoteFullDiscount).2.2.1
      (by norm_num [sampleQuoteFullDiscount])

/-- C10: for every quote whose lines all have a discount percentage in
[0, 100], the quote-level aggregate `subtotal_net` equals the sum of
`line_total` over its lines, although the two are computed by different code
paths with different clamping structure. -/
theorem subtotal_net_eq_sum_line_totals (q : Quote)
    (h : ∀ ln ∈ q.lines, 0 ≤ ln.discount_pct ∧ ln.discount_pct ≤ 100) :
    q.subtotal_net = (q.lines.map QuoteLine.line_total).sum :=
  gross_sub_discount_eq_sum q q.lines h

/-- C10 witness: the two paths agree on a concrete two-line quote including a
fully discounted line. -/
theorem subtotal_net_eq_sum_line_totals_witness :
    ({ pk := none, extra_discount_pct := 0, amount_clp := 0, pdf_reference := "",
       lines := [⟨"A", 2, 1000, 10, 0⟩, ⟨"B", 3, 700, 100, 1⟩] } : Quote).subtotal_net
      = (([⟨"A", 2, 1000, 10, 0⟩, ⟨"B", 3, 700, 100, 1⟩] : List QuoteLine).map
          QuoteLine.line_total).sum :=
  subtotal_net_eq_sum_line_totals
    { pk := none, extra_discount_pct := 0, amount_clp := 0, pdf_reference := "",
      lines := [⟨"A", 2, 1000, 10, 0⟩, ⟨"B", 3, 700, 100, 1⟩] }
    (by intro ln hln; fin_cases hln <;> norm_num)

/-- C9: `ensure_reference` assigns `COT-` + the 6-digit zero-padded id exactly
when the reference is blank and the quote has a persisted id; it never changes
a non-blank reference; it assigns nothing without a persisted id; and it is
idempotent. -/
theorem ensure_reference_spec (q : Quote) :
    (∀ n, q.pk = some n → 0 < n → q.pdf_reference = "" →
        q.ensure_reference.pdf_reference = "COT-" ++ pad6 n) ∧
    (q.pdf_reference ≠ "" → q.ensure_reference = q) ∧
    (q.pk = none → q.ensure_reference = q) ∧
    q.ensure_reference.ensure_reference = q.ensure_reference := by
  have hne : ∀ s : String, ¬ ("COT-" ++ s = "") := by
    intro s hcontra
    have hl := congrArg String.length hcontra
    simp [String.length_append] at hl
    exact absurd hl.1 (by decide)
  refine ⟨?_, ?_, ?_, ?_⟩
  · intro n hpk hpos href
    have hn : n ≠ 0 := Nat.pos_iff_ne_zero.mp hpos
    simp [Quote.ensure_reference, href, hpk, pkTruthy, hn]
  · intro href
    simp [Quote.ensure_reference, href]
  · intro hpk
    simp [Quote.ensure_reference, hpk, pkTruthy]
  · by_cases hc : q.pdf_reference = "" ∧ pkTruthy q.pk = true
    · have h1 : q.ensure_reference
          = { q with pdf_reference := "COT-" ++ pad6 (q.pk.getD 0) } := by
        simp [Quote.ensure_reference, hc.1, hc.2]
      rw [h1]
      simp [Quote.ensure_reference, hne]
    · have h1 : q.ensure_reference = q := by
        simp only [Quote.ensure_reference, ite_eq_right_iff]
        intro hcontra
        exact absurd hcontra hc
      simp only [h1]

/-- C9 witness: a persisted quote with id 123 and a blank reference receives
`COT-000123`, a second application leaves it unchanged, and an unsaved quote
is untouched. -/
theorem ensure_reference_spec_witness :
    ({ pk := some 123, extra_discount_pct := 0, amount_clp := 0,
       pdf_reference := "", lines := [] } : Quote).ensure_reference.pdf_reference
        = "COT-" ++ pad6 123 ∧
    ({ pk := some 123, extra_discount_pct := 0, amount_clp := 0,
       pdf_reference := "COT-000123", lines := [] } : Quote).ensure_reference
        = { pk := some 123, extra_discount_pct := 0, amount_clp := 0,
            pdf_reference := "COT-000123", lines := [] } ∧
    ({ pk := none, extra_discount_pct := 0, amount_clp := 0,
       pdf_reference := "", lines := [] } : Quote).ensure_reference
        = { pk := none, extra_discount_pct := 0, amount_clp := 0,
            pdf_reference := "", lines := [] } ∧
    ({ pk := some 123, extra_discount_pct := 0, amount_clp := 0,
       pdf_reference := "", lines := [] } : Quote).ensure_reference.ensure_reference
        = ({ pk := some 123, extra_discount_pct := 0, amount_clp := 0,
             pdf_reference := "", lines := [] } : Quote).ensure_reference :=
  ⟨(ensure_reference_spec _).1 123 rfl (by norm_num) rfl,
   (ensure_reference_spec _).2.1 (by decide),
   (ensure_reference_spec _).2.2.1 rfl,
   (ensure_reference_spec _).2.2.2⟩

/-- C3: in a debug deployment the middleware's "requires 2FA" holds iff a
global enforcement date is configured and today is on or after it (the user's
flags are irrelevant); in a non-debug deployment it holds iff the user's own
`requires_2fa` holds or the global condition does; and `User.requires_2fa`
itself holds iff `force_2fa` is set or the user belongs to an active role with
`require_2fa`. -/
theorem middleware_requires_2fa_rule (debug : Bool) (ed : Option Nat)
    (today : Nat) (u : User) :
    (debug = true →
      (middlewareRequires2FA debug ed today u = true ↔
        ∃ d, ed = some d ∧ d ≤ today)) ∧
    (debug = false →
      (middlewareRequires2FA debug ed today u = true ↔
        (u.requires_2fa = true ∨ ∃ d, ed = some d ∧ d ≤ today))) ∧
    (u.requires_2fa = true ↔
      (u.force_2fa = true ∨ ∃ r ∈ u.roles, r.require_2fa = true ∧ r.is_active = true)) := by
  have heg : enforceGlobal ed today = true ↔ ∃ d, ed = some d ∧ d ≤ today := by
    cases ed with
    | none => simp [enforceGlobal]
    | some d => simp [enforceGlobal]
  have hreq : u.requires_2fa = true ↔
      (u.force_2fa = true ∨ ∃ r ∈ u.roles, r.require_2fa = true ∧ r.is_active = true) := by
    simp [User.requires_2fa, List.any_eq_true]
  refine ⟨?_, ?_, hreq⟩
  · intro hdbg
    simp [middlewareRequires2FA, hdbg, heg]
  · intro hdbg
    simp [middlewareRequires2FA, hdbg, heg]

/-- C3 witness: with an enforcement date of day 100, on day 150 a user with no
2FA requirement of their own is forced in debug mode; in production mode a
`force_2fa` user is forced even without a date; and a debug build ignores
`force_2fa` when no date is set. -/
theorem middleware_requires_2fa_rule_witness :
    (middlewareRequires2FA true (some 100) 150 ⟨true, false, false, false, []⟩ = true ↔
      ∃ d, (some 100 : Option Nat) = some d ∧ d ≤ 150) ∧
    (middlewareRequires2FA false none 150 ⟨true, false, true, false, []⟩ = true ↔
      ((⟨true, false, true, false, []⟩ : User).requires_2fa = true ∨
        ∃ d, (none : Option Nat) = some d ∧ d ≤ 150)) ∧
    (middlewareRequires2FA true none 150 ⟨true, false, true, false, []⟩ = true ↔
      ∃ d, (none : Option Nat) = some d ∧ d ≤ 150) :=
  ⟨(middleware_requires_2fa_rule true (some 100) 150 _).1 rfl,
   (middleware_requires_2fa_rule false none 150 _).2.1 rfl,
   (middleware_requires_2fa_rule true none 150 _).1 rfl⟩

/-- C5: the role hierarchy is one-directional — an authenticated non-superuser
whose only role is the active `Comercial_Jefe` passes the "Comercial" check,
while one whose only role is the active `Comercial` fails the
"Comercial_Jefe" check; a superuser with no roles passes exactly the checks
whose stripped name lowercases to "admin"; and the check is false for a
missing user, an unauthenticated user, or a blank role name. -/
theorem role_check_one_directional :
    (∀ u : User, u.is_authenticated = true → ∀ r2 : Bool,
        u.roles = [⟨"Comercial_Jefe", true, r2⟩] →
        user_has_role (some u) "Comercial" = true) ∧
    (∀ u : User, u.is_superuser = false → ∀ r2 : Bool,
        u.roles = [⟨"Comercial", true, r2⟩] →
        user_has_role (some u) "Comercial_Jefe" = false) ∧
    (∀ u : User, u.is_authenticated = true → u.is_superuser = true →
        u.roles = [] → ∀ name : String,
        (user_has_role (some u) name = true ↔ pyLower (pyStrip name) = "admin")) ∧
    (∀ u : User, u.is_authenticated = false →
        ∀ name : String, user_has_role (some u) name = false) ∧
    (∀ name : String, user_has_role none name = false) ∧
    (∀ u : User, ∀ name : String, pyStrip name = "" →
        user_has_role (some u) name = false) := by
  have hCom : pyStrip "Comercial" = "Comercial" := by decide
  have hComL : pyLower "Comercial" = "comercial" := by decide
  have hJefe : pyStrip "Comercial_Jefe" = "Comercial_Jefe" := by decide
  have hJefeL : pyLower "Comercial_Jefe" = "comercial_jefe" := by decide
  refine ⟨?_, ?_, ?_, ?_, ?_, ?_⟩
  · intro u hauth r2 hroles
    simp [user_has_role, hauth, hroles, hCom, hComL]
  · intro u hsu r2 hroles
    simp [user_has_role, hsu, hroles, hJefe, hJefeL]
  · intro u hauth hsu hroles name
    by_cases hblank : pyStrip name = ""
    · rw [hblank]
      have : pyLower "" = "" := by decide
      simp [user_has_role, hauth, hblank, this]
    · by_cases hadm : pyLower (pyStrip name) = "admin"
      · simp [user_has_role, hauth, hblank, hsu, hadm]
      · simp [user_has_role, hauth, hblank, hsu, hadm, hroles]
  · intro u hauth name
    simp [user_has_role, hauth]
  · intro name
    simp [user_has_role]
  · intro u name hblank
    by_cases hauth : u.is_authenticated
    · simp [user_has_role, hauth, hblank]
    · simp only [Bool.not_eq_true] at hauth
      simp [user_has_role, hauth]

/-- C5 witness: concrete users exercising each clause — a `Comercial_Jefe`-only
user passing the "Comercial" check, a `Comercial`-only user failing the
"Comercial_Jefe" check, a role-less superuser passing "ADMIN" but not
"Comercial", and the degenerate unauthenticated / missing-user / blank-name
cases. -/
theorem role_check_one_directional_witness :
    user_has_role (some ⟨true, false, false, false, [⟨"Comercial_Jefe", true, false⟩]⟩)
        "Comercial" = true ∧
    user_has_role (some ⟨true, false, false, false, [⟨"Comercial", true, false⟩]⟩)
        "Comercial_Jefe" = false ∧
    (user_has_role (some ⟨true, true, false, false, []⟩) "ADMIN" = true ↔
      pyLower (pyStrip "ADMIN") = "admin") ∧
    (user_has_role (some ⟨true, true, false, false, []⟩) "Comercial" = true ↔
      pyLower (pyStrip "Comercial") = "admin") ∧
    user_has_role (some ⟨false, true, false, false, []⟩) "Admin" = false ∧
    user_has_role none "Admin" = false ∧
    user_has_role (some ⟨true, true, false, false, []⟩) "  " = false :=
  ⟨role_check_one_directional.1 _ rfl false rfl,
   role_check_one_directional.2.1 _ rfl false rfl,
   role_check_one_directional.2.2.1 _ rfl rfl rfl "ADMIN",
   role_check_one_directional.2.2.1 _ rfl rfl rfl "Comercial",
   role_check_one_directional.2.2.2.1 _ rfl "Admin",
   role_check_one_directional.2.2.2.2.1 "Admin",
   role_check_one_directional.2.2.2.2.2 _ "  " (by decide)⟩

/-- C6: the task status-update endpoint rejects `PEND_EXTERNO` with a blank
comment leaving the task unchanged; accepts it with a non-blank comment,
persisting status and comment and clearing `completed_at`; stamps
`completed_at = now` on `COMPLETADA`; clears `completed_at` on the remaining
valid status `EN_PROCESO`; and rejects an unknown status with no change. -/
theorem task_status_update_spec (t : Task) (s c : String) (now : Int) :
    (pyStrip s = "PEND_EXTERNO" → pyStrip c = "" →
      task_update_status t s c now =
        (.rejected "Para 'Pendiente por persona externa' debes ingresar un comentario obligatorio.", t)) ∧
    (pyStrip s = "PEND_EXTERNO" → pyStrip c ≠ "" →
      (task_update_status t s c now).1 = .ok ∧
      (task_update_status t s c now).2.status = "PEND_EXTERNO" ∧
      (task_update_status t s c now).2.status_comment = pyStrip c ∧
      (task_update_status t s c now).2.completed_at = none) ∧
    (pyStrip s = "COMPLETADA" →
      (task_update_status t s c now).1 = .ok ∧
      (task_update_status t s c now).2.status = "COMPLETADA" ∧
      (task_update_status t s c now).2.completed_at = some now) ∧
    (pyStrip s = "EN_PROCESO" →
      (task_update_status t s c now).1 = .ok ∧
      (task_update_status t s c now).2.status = "EN_PROCESO" ∧
      (task_update_status t s c now).2.completed_at = none) ∧
    (taskStatusCodes.contains (pyStrip s) = false →
      task_update_status t s c now = (.rejected "Estatus inválido.", t)) := by
  refine ⟨?_, ?_, ?_, ?_, ?_⟩
  · intro hs hc
    simp [task_update_status, hs, hc, taskStatusCodes]
  · intro hs hc
    refine ⟨?_, ?_, ?_, ?_⟩ <;>
      simp [task_update_status, hs, hc, taskStatusCodes]
  · intro hs
    by_cases hc : pyStrip c = "" <;>
      refine ⟨?_, ?_, ?_⟩ <;>
        simp [task_update_status, hs, hc, taskStatusCodes]
  · intro hs
    refine ⟨?_, ?_, ?_⟩ <;>
      simp [task_update_status, hs, taskStatusCodes]
  · intro hs
    simp [task_update_status, hs]
    intro hmem
    simp at hs
    exact absurd hmem hs

/-- C7: after saving a contact, its current company (when set) carries the
contact's own activity timestamp — or the time of the save when the contact
has none — and, when the company association changed relative to the
previously persisted row, the previous company additionally carries the time
of the save. -/
theorem contact_activity_propagation (db : CRMDB) (c : SContact) (now : Int) :
    (∀ cid, c.company_id = some cid → cid ≠ 0 →
      ∀ co ∈ (contactSave db c now).companies, co.id = cid →
        co.last_activity_at = some (c.last_activity_at.getD now)) ∧
    (∀ ocid, oldCompanyId db c = some ocid → ocid ≠ 0 →
      some ocid ≠ c.company_id →
      ∀ co ∈ (contactSave db c now).companies, co.id = ocid →
        co.last_activity_at = some now) := by
  constructor
  · intro cid hcid hne co hmem hid
    simp only [contactSave, hcid, if_pos hne] at hmem
    rcases hold : oldCompanyId db c with _ | ocid
    · rw [hold] at hmem
      dsimp only at hmem
      exact touchCompany_mem_eq _ _ _ _ hmem hid
    · rw [hold] at hmem
      dsimp only at hmem
      by_cases hg : ocid ≠ 0 ∧ some ocid ≠ some cid
      · rw [if_pos hg] at hmem
        have hne2 : co.id ≠ ocid := by
          rw [hid]
          intro hcontra
          exact hg.2 (by rw [hcontra])
        exact touchCompany_mem_eq _ _ _ _
          (touchCompany_mem_ne _ _ _ _ hmem hne2) hid
      · rw [if_neg hg] at hmem
        exact touchCompany_mem_eq _ _ _ _ hmem hid
  · intro ocid hold hne0 hnec co hmem hid
    simp only [contactSave, hold] at hmem
    rw [if_pos (And.intro hne0 hnec)] at hmem
    exact touchCompany_mem_eq _ _ _ _ hmem hid

/-- C7 witness: saving the sample contact at time 100 stamps the new company
(id 2) with the contact's own timestamp 42 and the abandoned company (id 1)
with the save time 100. -/
theorem contact_activity_propagation_witness :
    (⟨2, some 42⟩ : SCompany).last_activity_at
      = some ((wContact.last_activity_at).getD 100) ∧
    (⟨1, some 100⟩ : SCompany).last_activity_at = some 100 :=
  ⟨(contact_activity_propagation wCRMDB wContact 100).1 2 rfl (by decide)
      ⟨2, some 42⟩ (by decide) rfl,
   (contact_activity_propagation wCRMDB wContact 100).2 1 (by decide) (by decide)
      (by decide) ⟨1, some 100⟩ (by decide) rfl⟩

/-- C6 witness: a concrete task driven through each transition — blank-comment
`PEND_EXTERNO` rejection, commented `PEND_EXTERNO` acceptance, completion
stamping, `EN_PROCESO` clearing, and an unknown status rejection. -/
theorem task_status_update_spec_witness :
    (task_update_status ⟨"EN_PROCESO", "", some 5, 0⟩ "PEND_EXTERNO" "  " 77 =
      (.rejected "Para 'Pendiente por persona externa' debes ingresar un comentario obligatorio.",
        ⟨"EN_PROCESO", "", some 5, 0⟩)) ∧
    ((task_update_status ⟨"EN_PROCESO", "", some 5, 0⟩ "PEND_EXTERNO" "esperando" 77).1 = .ok ∧
      (task_update_status ⟨"EN_PROCESO", "", some 5, 0⟩ "PEND_EXTERNO" "esperando" 77).2.status
        = "PEND_EXTERNO" ∧
      (task_update_status ⟨"EN_PROCESO", "", some 5, 0⟩ "PEND_EXTERNO" "esperando" 77).2.status_comment
        = pyStrip "esperando" ∧
      (task_update_status ⟨"EN_PROCESO", "", some 5, 0⟩ "PEND_EXTERNO" "esperando" 77).2.completed_at
        = none) ∧
    ((task_update_status ⟨"EN_PROCESO", "", none, 0⟩ "COMPLETADA" "" 77).2.completed_at
      = some 77) ∧
    ((task_update_status ⟨"COMPLETADA", "", some 5, 0⟩ "EN_PROCESO" "" 77).2.completed_at
      = none) ∧
    (task_update_status ⟨"EN_PROCESO", "", some 5, 0⟩ "CANCELADA" "" 77 =
      (.rejected "Estatus inválido.", ⟨"EN_PROCESO", "", some 5, 0⟩)) :=
  ⟨(task_status_update_spec ⟨"EN_PROCESO", "", some 5, 0⟩ "PEND_EXTERNO" "  " 77).1
      (by decide) (by decide),
   (task_status_update_spec ⟨"EN_PROCESO", "", some 5, 0⟩ "PEND_EXTERNO" "esperando" 77).2.1
      (by decide) (by decide),
   ((task_status_update_spec ⟨"EN_PROCESO", "", none, 0⟩ "COMPLETADA" "" 77).2.2.1
      (by decide)).2.2,
   ((task_status_update_spec ⟨"COMPLETADA", "", some 5, 0⟩ "EN_PROCESO" "" 77).2.2.2.1
      (by decide)).2.2,
   (task_status_update_spec ⟨"EN_PROCESO", "", some 5, 0⟩ "CANCELADA" "" 77).2.2.2.2
      (by decide)⟩

/-- C4: issuing a trusted device stores the SHA-256 hash of the raw token
(distinct from the raw token whenever the token is not a hex-digest fixed
point); verifying that raw token for that user before expiry returns the
device with `last_used_at` stamped and persisted; an absent token, a token
with a different hash, an expired lookup, and a lookup after revocation all
return no match. -/
theorem trusted_device_round_trip
    (newId userId : Nat) (raw other ip ua : String)
    (now now1 now2 now3 : Int) (days : Int)
    (td : TrustedDevice) (db1 : List TrustedDevice)
    (hissue : make_trusted_device [] newId userId raw ip ua now days = (raw, td, db1))
    (hraw : raw ≠ "")
    (hfixed : hash_token raw ≠ raw)
    (hother : hash_token other ≠ hash_token raw)
    (hfresh : now1 < now + days * 86400)
    (hexp : ¬ now2 < now + days * 86400) :
    td.token_hash = hash_token raw ∧
    raw ≠ td.token_hash ∧
    verify_trusted_device db1 userId (some raw) now1
      = (some (td.mark_used now1), [td.mark_used now1]) ∧
    (td.mark_used now1).last_used_at = some now1 ∧
    verify_trusted_device db1 userId none now1 = (none, db1) ∧
    (verify_trusted_device db1 userId (some other) now1).1 = none ∧
    (verify_trusted_device db1 userId (some raw) now2).1 = none ∧
    (verify_trusted_device (revoke_trusted_device db1 userId newId now1)
        userId (some raw) now3).1 = none := by
  simp only [make_trusted_device, List.nil_append] at hissue
  injection hissue with h1 hrest
  injection hrest with htd hdb
  subst htd
  subst hdb
  have hfr : decide (now1 < now + days * 86400) = true := decide_eq_true hfresh
  have hex : decide (now2 < now + days * 86400) = false := decide_eq_false hexp
  have hob : (hash_token raw == hash_token other) = false :=
    beq_eq_false_iff_ne.mpr (fun h => hother h.symm)
  refine ⟨rfl, ?_, ?_, rfl, rfl, ?_, ?_, ?_⟩
  · intro h
    exact hfixed h.symm
  · simp [verify_trusted_device, hraw, List.find?, hfr, TrustedDevice.mark_used]
  · by_cases ho : other = ""
    · simp [verify_trusted_device, ho]
    · simp [verify_trusted_device, ho, List.find?, hob]
  · simp [verify_trusted_device, hraw, List.find?, hex]
  · simp [revoke_trusted_device, verify_trusted_device, hraw, List.find?]

set_option maxRecDepth 1000000 in
/-- C4 witness: the round trip at the concrete issuance `wIssue` — the stored
hash is a computed SHA-256 digest distinct from the raw token, the raw token
verifies before expiry (stamping last-used), and a different token, an expired
lookup, an absent token, and a post-revocation lookup all fail. -/
theorem trusted_device_round_trip_witness :
    wIssue.2.1.token_hash = hash_token "secret-raw-token" ∧
    "secret-raw-token" ≠ wIssue.2.1.token_hash ∧
    verify_trusted_device wIssue.2.2 7 (some "secret-raw-token") 5000
      = (some (wIssue.2.1.mark_used 5000), [wIssue.2.1.mark_used 5000]) ∧
    (wIssue.2.1.mark_used 5000).last_used_at = some 5000 ∧
    verify_trusted_device wIssue.2.2 7 none 5000 = (none, wIssue.2.2) ∧
    (verify_trusted_device wIssue.2.2 7 (some "another-token") 5000).1 = none ∧
    (verify_trusted_device wIssue.2.2 7 (some "secret-raw-token") 8000000).1 = none ∧
    (verify_trusted_device (revoke_trusted_device wIssue.2.2 7 1 5000) 7
        (some "secret-raw-token") 6000).1 = none :=
  trusted_device_round_trip 1 7 "secret-raw-token" "another-token" "1.2.3.4" "agent"
    0 5000 8000000 6000 90 wIssue.2.1 wIssue.2.2 rfl (by decide) (by decide)
    (by decide) (by decide) (by decide)

set_option maxRecDepth 1000000 in
/-- C2 (code bug): in this non-debug state the user requires and has confirmed
2FA, the session holds no OTP-verified timestamp, and the presented cookie
verifies as an unrevoked, unexpired trusted device of the same user — yet the
middleware neither proceeds nor redirects: the call
`get_valid_trusted_device_from_cookie(request, cookie_name=...)` passes a
keyword argument the function signature `(request, user=None)` does not
accept, so Python raises a `TypeError`. -/
theorem require2fa_trusted_cookie_raises :
    middlewareRequires2FA bugSettings.debug bugSettings.enforce_date 100 bugReq.user = true ∧
    bugReq.user.has_confirmed_2fa = true ∧
    bugReq.otp_verified_at = none ∧
    ((get_valid_trusted_device_from_cookie wIssue.2.2 bugReq 5000).1.map
        (fun td => td.user_id)) = some bugReq.user_id ∧
    require2FA_call bugSettings bugReq 100 5000 wIssue.2.2 = .raisedTypeError := by
  refine ⟨rfl, rfl, rfl, by decide, rfl⟩

/-- C8: regenerating backup codes stores exactly the 10 sampled codes on the
user's "backup" static device, discarding every previous token, so a code
outside the new batch (that the TOTP device does not accept) no longer
verifies; and each code of a distinct batch verifies once as "backup",
consuming it, and fails on reuse. -/
theorem backup_codes_single_use (st0 : OtpState) (cs : List String)
    (hlen : cs.length = 10) (hnodup : cs.Nodup) :
    (generate_backup_codes st0 cs).1.length = 10 ∧
    (generate_backup_codes st0 cs).1.Nodup ∧
    (generate_backup_codes st0 cs).2.backup_tokens = some cs ∧
    (∀ t : String,
      totpAccepts (generate_backup_codes st0 cs).2 (normToken t) = false →
      normToken t ∉ cs →
      (verify_any_otp (generate_backup_codes st0 cs).2 t).1.1 = false) ∧
    (∀ c ∈ cs, normToken c = c →
      totpAccepts (generate_backup_codes st0 cs).2 c = false →
      (verify_any_otp (generate_backup_codes st0 cs).2 c).1 = (true, "backup") ∧
      (verify_any_otp (generate_backup_codes st0 cs).2 c).2.backup_tokens
        = some (cs.erase c) ∧
      (verify_any_otp
        (verify_any_otp (generate_backup_codes st0 cs).2 c).2 c).1.1 = false) := by
  refine ⟨by simp [generate_backup_codes, hlen],
    by simpa [generate_backup_codes] using hnodup,
    rfl, ?_, ?_⟩
  · intro t htotp hnot
    simp only [generate_backup_codes] at htotp
    simp [verify_any_otp, generate_backup_codes, static_verify, htotp, hnot]
  · intro c hc hnorm htotp
    simp only [generate_backup_codes] at htotp
    have h1 : verify_any_otp (generate_backup_codes st0 cs).2 c
        = ((true, "backup"),
           { st0 with backup_tokens := some (cs.erase c) }) := by
      simp [verify_any_otp, generate_backup_codes, static_verify, hnorm, htotp, hc]
    refine ⟨by rw [h1], by rw [h1], ?_⟩
    rw [h1]
    have htotp2 : totpAccepts { st0 with backup_tokens := some (cs.erase c) } c = false := by
      simpa [totpAccepts] using htotp
    have hnot2 : c ∉ cs.erase c := hnodup.not_mem_erase
    simp [verify_any_otp, static_verify, hnorm, htotp2, hnot2]

/-- C8 witness: regenerating over `wOtp0` with `wCodes` yields the 10 codes,
the old code "OLDAAA" stops verifying, and "AAAA0001" verifies once as
"backup" then fails on reuse. -/
theorem backup_codes_single_use_witness :
    (generate_backup_codes wOtp0 wCodes).1.length = 10 ∧
    (generate_backup_codes wOtp0 wCodes).2.backup_tokens = some wCodes ∧
    (verify_any_otp (generate_backup_codes wOtp0 wCodes).2 "OLDAAA").1.1 = false ∧
    (verify_any_otp (generate_backup_codes wOtp0 wCodes).2 "AAAA0001").1
      = (true, "backup") ∧
    (verify_any_otp
      (verify_any_otp (generate_backup_codes wOtp0 wCodes).2 "AAAA0001").2
      "AAAA0001").1.1 = false := by
  have h := backup_codes_single_use wOtp0 wCodes (by decide) (by decide)
  refine ⟨h.1, h.2.2.1, ?_, ?_, ?_⟩
  · exact h.2.2.2.1 "OLDAAA" (by decide) (by decide)
  · exact (h.2.2.2.2 "AAAA0001" (by decide) (by decide) (by decide)).1
  · exact (h.2.2.2.2 "AAAA0001" (by decide) (by decide) (by decide)).2.2

end MV
